import Mathlib

/-!
Verification of the material synchronization and texture-resource binding
subsystem of the USD Storm renderer (hdSt/material.cpp, hdSt/textureBinder.cpp)
and of the per-primvar data source (usdImaging/dataSourcePrimvars.cpp).

The C++ code is shallowly embedded: pure functions become Lean functions,
the stateful `HdStMaterial::Sync` entry point becomes an explicit
state-transformer returning the new material state together with the list of
invalidation calls it issued, and device (OpenGL) mutations become explicit
command lists.  External collaborators (scene delegate, resource registry,
fallback glslfx file, GL capabilities) are passed in as explicit inputs,
mirroring the data the C++ code obtains from them.
-/

namespace USD

/-- Tokens (TfToken) are interned strings; modelled as plain strings. -/
abbrev Token := String

/-- Scene paths (SdfPath); only emptiness is inspected by the embedded code. -/
abbrev SdfPath := String

/-- Values held in a VtValue, as far as the embedded code inspects them:
`_GetHasLimitSurfaceEvaluation` asks `IsHolding<bool>` and reads the bool. -/
inductive VtVal where
  | boolVal (b : Bool)
  | intVal (n : Int)
  | stringVal (s : String)
  | vecVal (xs : List Int)
deriving DecidableEq, Repr

/-- A VtDictionary, keyed by token. -/
abbrev VtDictionary := List (Token × VtVal)

/-- Texture types (HdTextureType from hd/enums.h): Uv, Ptex, Udim, Field. -/
inductive HdTextureType where
  | Uv
  | Ptex
  | Udim
  | Field
deriving DecidableEq, Repr

/-- Value types appearing in buffer specs of this subsystem (HdType). -/
inductive HdType where
  | HdTypeUInt32Vec2
  | HdTypeDoubleMat4
deriving DecidableEq, Repr

/-- HdTupleType: a value type together with an array count. -/
structure HdTupleType where
  type : HdType
  count : Nat
deriving DecidableEq, Repr

/-- HdBufferSpec: a named entry of a shader buffer layout. -/
structure HdBufferSpec where
  name : Token
  tupleType : HdTupleType
deriving DecidableEq, Repr

/-! ## Texture and sampler objects (hdSt/textureObject.h, samplerObject.h)

Only the accessors used by the binder are modelled: the GL texture name
(behind a `dynamic_cast<HgiGLTexture*>` that can fail, hence `Option`),
the GL sampler name, and the Ptex texel/layout GL names. -/

/-- The texture object stored in a texture handle, per texture type.
The `Option Nat` is the GL texture id obtained through
`dynamic_cast<HgiGLTexture*>(...)->GetTextureId()`; `none` models a
failed cast or missing device object. -/
inductive HdStTextureObject where
  | uv (glTexture : Option Nat)
  | field (glTexture : Option Nat) (samplingTransform : List Int)
  | ptex (texelGLTextureName : Nat) (layoutGLTextureName : Nat)
deriving DecidableEq, Repr

/-- The sampler object stored in a texture handle, per texture type. -/
inductive HdStSamplerObject where
  | uv (glSamplerName : Nat) (glTextureSamplerHandle : Nat)
  | field (glSamplerName : Nat) (glTextureSamplerHandle : Nat)
  | ptex (texelsGLTextureHandle : Nat) (layoutGLTextureHandle : Nat)
deriving DecidableEq, Repr

/-- HdStTextureHandle: pairs one texture object with one sampler object. -/
structure HdStTextureHandle where
  textureObject : HdStTextureObject
  samplerObject : HdStSamplerObject
deriving DecidableEq, Repr

/-- HdStShaderCode::NamedTextureHandle: (name, type, handle). -/
structure NamedTextureHandle where
  name : Token
  type : HdTextureType
  handle : HdStTextureHandle
deriving DecidableEq, Repr

/-! ## HdSt_TextureBinder (hdSt/textureBinder.cpp) -/

/-- static const HdTupleType _bindlessHandleTupleType{ HdTypeUInt32Vec2, 1 }. -/
def _bindlessHandleTupleType : HdTupleType :=
  { type := HdType.HdTypeUInt32Vec2, count := 1 }

namespace HdSt_TextureBinder

/-- HdSt_TextureBinder::GetBufferSpecs appends, per named texture, the layout
entries its type contributes.  `usesBindlessTextures` is the result of the
`UsesBindlessTextures()` capability query, supplied by the caller.
The Udim case hits the `default: TF_CODING_ERROR` branch and appends
nothing. -/
def GetBufferSpecs (usesBindlessTextures : Bool)
    (textures : List NamedTextureHandle)
    (specs : List HdBufferSpec) : List HdBufferSpec :=
  textures.foldl (fun specs texture =>
    match texture.type with
    | HdTextureType.Uv =>
        if usesBindlessTextures then
          specs ++ [{ name := texture.name, tupleType := _bindlessHandleTupleType }]
        else
          specs
    | HdTextureType.Field =>
        let specs :=
          if usesBindlessTextures then
            specs ++ [{ name := texture.name, tupleType := _bindlessHandleTupleType }]
          else
            specs
        specs ++ [{ name := texture.name ++ "SamplingTransform",
                    tupleType := { type := HdType.HdTypeDoubleMat4, count := 1 } }]
    | HdTextureType.Ptex =>
        if usesBindlessTextures then
          specs ++ [{ name := texture.name, tupleType := _bindlessHandleTupleType },
                    { name := texture.name ++ "_layout",
                      tupleType := _bindlessHandleTupleType }]
        else
          specs
    | HdTextureType.Udim => specs) specs

end HdSt_TextureBinder

/-! ## Binding (device side)

GL mutations are recorded as an explicit command list. -/

/-- GL texture targets used by the binder. -/
inductive GLTarget where
  | texture2d
  | texture3d
  | texture2dArray
  | textureBuffer
deriving DecidableEq, Repr

/-- A device operation issued by the binder. -/
inductive GLCommand where
  | activeTexture (unit : Nat)
  | bindTexture (target : GLTarget) (textureId : Nat)
  | bindSampler (unit : Nat) (samplerName : Nat)
deriving DecidableEq, Repr

/-- HdSt_ResourceBinder, reduced to the single query the binder uses:
`GetBinding(name).GetTextureUnit()`. -/
structure HdSt_ResourceBinder where
  textureUnit : Token → Nat

/-- The free function `_BindTexture` of textureBinder.cpp: activate the
texture unit assigned to `name`, bind the GL texture (or 0 when unbinding or
when the HgiGLTexture cast failed), and bind the sampler (or 0). -/
def _BindTexture (target : GLTarget) (glTexture : Option Nat)
    (glSamplerName : Nat) (name : Token)
    (binder : HdSt_ResourceBinder) (bind : Bool) : List GLCommand :=
  let samplerUnit := binder.textureUnit name
  let glTex := if bind then glTexture else none
  [GLCommand.activeTexture samplerUnit] ++
  (match glTex with
   | some texId => [GLCommand.bindTexture target texId]
   | none => [GLCommand.bindTexture target 0]) ++
  [GLCommand.bindSampler samplerUnit (if bind then glSamplerName else 0)]

/-- `_CastAndCompute<textureType, _BindFunctor>` followed by the matching
`_BindFunctor::Compute` overload.  A texture or sampler object whose dynamic
type does not match the declared texture type corresponds to a failed
`dynamic_cast`: `TF_CODING_ERROR` is logged and nothing is bound (empty
command list).  The Ptex overload binds the texel 2D-array texture and the
layout buffer texture at their two units and binds no sampler. -/
def _BindDispatch (binder : HdSt_ResourceBinder) (bind : Bool)
    (namedTextureHandle : NamedTextureHandle) : List GLCommand :=
  match namedTextureHandle.type,
        namedTextureHandle.handle.textureObject,
        namedTextureHandle.handle.samplerObject with
  | HdTextureType.Uv, HdStTextureObject.uv glTexture,
      HdStSamplerObject.uv glSamplerName _ =>
      _BindTexture GLTarget.texture2d glTexture glSamplerName
        namedTextureHandle.name binder bind
  | HdTextureType.Field, HdStTextureObject.field glTexture _,
      HdStSamplerObject.field glSamplerName _ =>
      _BindTexture GLTarget.texture3d glTexture glSamplerName
        namedTextureHandle.name binder bind
  | HdTextureType.Ptex, HdStTextureObject.ptex texelName layoutName,
      HdStSamplerObject.ptex _ _ =>
      let texelSamplerUnit := binder.textureUnit namedTextureHandle.name
      let layoutSamplerUnit :=
        binder.textureUnit (namedTextureHandle.name ++ "_layout")
      [GLCommand.activeTexture texelSamplerUnit,
       GLCommand.bindTexture GLTarget.texture2dArray
         (if bind then texelName else 0),
       GLCommand.activeTexture layoutSamplerUnit,
       GLCommand.bindTexture GLTarget.textureBuffer
         (if bind then layoutName else 0)]
  | _, _, _ => []

namespace HdSt_TextureBinder

/-- HdSt_TextureBinder::BindResources: early-out doing nothing when bindless
textures are in use, otherwise dispatch `_BindFunctor` with bind = true over
every named texture. -/
def BindResources (usesBindlessTextures : Bool)
    (binder : HdSt_ResourceBinder)
    (textures : List NamedTextureHandle) : List GLCommand :=
  if usesBindlessTextures then
    []
  else
    textures.flatMap (_BindDispatch binder true)

/-- HdSt_TextureBinder::UnbindResources: early-out doing nothing when bindless
textures are in use, otherwise dispatch `_BindFunctor` with bind = false. -/
def UnbindResources (usesBindlessTextures : Bool)
    (binder : HdSt_ResourceBinder)
    (textures : List NamedTextureHandle) : List GLCommand :=
  if usesBindlessTextures then
    []
  else
    textures.flatMap (_BindDispatch binder false)

end HdSt_TextureBinder

/-! ## HdStMaterial (hdSt/material.cpp) -/

/-- Wrap modes (HdWrap from hd/enums.h), as far as this subsystem uses them. -/
inductive HdWrap where
  | HdWrapClamp
  | HdWrapRepeat
  | HdWrapBlack
  | HdWrapMirror
  | HdWrapNoOpinion
deriving DecidableEq, Repr

/-- Minification filters (HdMinFilter). -/
inductive HdMinFilter where
  | HdMinFilterNearest
  | HdMinFilterLinear
  | HdMinFilterNearestMipmapNearest
  | HdMinFilterLinearMipmapLinear
deriving DecidableEq, Repr

/-- Magnification filters (HdMagFilter). -/
inductive HdMagFilter where
  | HdMagFilterNearest
  | HdMagFilterLinear
deriving DecidableEq, Repr

/-- Sampler state carried by a texture descriptor (HdSamplerParameters). -/
structure HdSamplerParameters where
  wrapS : HdWrap
  wrapT : HdWrap
  wrapR : HdWrap
  minFilter : HdMinFilter
  magFilter : HdMagFilter
deriving DecidableEq, Repr

/-- The discriminator of HdSt_MaterialParam (hdSt/materialParam.h):
exactly one kind is active per parameter. -/
inductive HdSt_MaterialParamType where
  | ParamTypeFallback
  | ParamTypePrimvar
  | ParamTypeTexture
deriving DecidableEq, Repr

/-- HdSt_MaterialParam: one shading-network input, as consumed by
HdStMaterial::Sync and _GetTextureResourceHandle. -/
structure HdSt_MaterialParam where
  paramType : HdSt_MaterialParamType
  name : Token
  fallbackValue : VtVal
  connection : SdfPath
  textureType : HdTextureType
  samplerParameters : HdSamplerParameters
deriving DecidableEq, Repr

/-- HdSt_MaterialParam::IsFallback. -/
def HdSt_MaterialParam.IsFallback (p : HdSt_MaterialParam) : Bool :=
  match p.paramType with
  | HdSt_MaterialParamType.ParamTypeFallback => true
  | _ => false

/-- HdSt_MaterialParam::IsPrimvarRedirect. -/
def HdSt_MaterialParam.IsPrimvarRedirect (p : HdSt_MaterialParam) : Bool :=
  match p.paramType with
  | HdSt_MaterialParamType.ParamTypePrimvar => true
  | _ => false

/-- HdSt_MaterialParam::IsTexture. -/
def HdSt_MaterialParam.IsTexture (p : HdSt_MaterialParam) : Bool :=
  match p.paramType with
  | HdSt_MaterialParamType.ParamTypeTexture => true
  | _ => false

/-- HdStMaterialNetwork::TextureDescriptor, recomputed from the network each
Sync pass (identity, type, sampler state, memory request, derived name). -/
structure TextureDescriptor where
  name : Token
  textureId : Nat
  type : HdTextureType
  samplerParameters : HdSamplerParameters
  memoryRequest : Nat
deriving DecidableEq, Repr

/-- The static helper `_IsSupportedByNewTextureSystem` of material.cpp. -/
def _IsSupportedByNewTextureSystem : HdTextureType → Bool
  | HdTextureType.Uv => true
  | HdTextureType.Field => true
  | HdTextureType.Ptex => true
  | _ => false

/-- GlfUVTextureStorage: a width × height texture holding a literal value;
the fallback path constructs it as `GlfUVTextureStorage::New(1, 1, v)`. -/
structure GlfUVTextureStorage where
  width : Nat
  height : Nat
  storedValue : VtVal
deriving DecidableEq, Repr

/-- HdStSimpleTextureResource, recording the constructor arguments used by
the fallback path of `_GetTextureResourceHandle`. -/
structure HdStSimpleTextureResource where
  texture : GlfUVTextureStorage
  textureType : HdTextureType
  wrapS : HdWrap
  wrapT : HdWrap
  wrapR : HdWrap
  minFilter : HdMinFilter
  magFilter : HdMagFilter
  memoryRequest : Nat
deriving DecidableEq, Repr

/-- An HdStTextureResource is either a resource owned elsewhere (resource
registry or scene delegate, identified here by an abstract key) or a simple
texture resource constructed by the material itself. -/
inductive HdStTextureResource where
  | registered (key : Nat)
  | simple (resource : HdStSimpleTextureResource)
deriving DecidableEq, Repr

/-- HdStTextureResourceHandle: wraps an optional texture resource
(`GetTextureResource` may return null). -/
structure HdStTextureResourceHandle where
  textureResource : Option HdStTextureResource
deriving DecidableEq, Repr

/-- The results of the external lookups performed by
`_GetTextureResourceHandle` for one parameter: the texture id from
`GetTextureResourceID`, the registry lookups (`FindTextureResource`,
`FindTextureResourceHandle`, where `none` is a not-found miss), and the
scene delegate's `GetTextureResource` answer. -/
structure TextureResolutionInput where
  texID : Int
  registryResource : Option HdStTextureResource
  registryHandle : Option HdStTextureResourceHandle
  delegateResource : Option HdStTextureResource

/-- HdStMaterial::_GetTextureResourceHandle.  Returns the resolved (or
fallback) handle together with the handles pushed onto the material's
`_internalTextureResourceHandles` list by this call.  Mirrors the source:
registry lookup guarded by a valid texture id, attaching the found resource
to a registry handle, falling back to the scene delegate's resource, and
finally the 1×1 fallback-texture construction for Uv parameters (other
texture types return an empty handle). -/
def _GetTextureResourceHandle (inp : TextureResolutionInput)
    (param : HdSt_MaterialParam) :
    Option HdStTextureResourceHandle × List HdStTextureResourceHandle :=
  let connection := param.connection
  let (texResource, handle) :
      Option HdStTextureResource × Option HdStTextureResourceHandle :=
    if connection = "" then (none, none)
    else
      let texResource : Option HdStTextureResource :=
        if inp.texID = -1 then none
        else
          match inp.registryResource with
          | some found => some found
          | none => none
      let handle : Option HdStTextureResourceHandle :=
        match inp.registryHandle with
        | some h => some { h with textureResource := texResource }
        | none => none
      let texResource :=
        match texResource with
        | some tr => some tr
        | none => inp.delegateResource
      (texResource, handle)
  let handleUsable : Bool :=
    match handle with
    | some h => h.textureResource.isSome
    | none => false
  if handleUsable then (handle, [])
  else
    match texResource with
    | none =>
        if param.textureType ≠ HdTextureType.Uv then (none, [])
        else
          let texPtr : GlfUVTextureStorage :=
            { width := 1, height := 1, storedValue := param.fallbackValue }
          let fallbackResource := HdStTextureResource.simple
            { texture := texPtr
              textureType := HdTextureType.Uv
              wrapS := HdWrap.HdWrapClamp
              wrapT := HdWrap.HdWrapClamp
              wrapR := HdWrap.HdWrapClamp
              minFilter := HdMinFilter.HdMinFilterNearest
              magFilter := HdMagFilter.HdMagFilterNearest
              memoryRequest := 0 }
          let newHandle : HdStTextureResourceHandle :=
            { textureResource := some fallbackResource }
          (some newHandle, [newHandle])
    | some tr =>
        let newHandle : HdStTextureResourceHandle :=
          { textureResource := some tr }
        (some newHandle, [newHandle])

/-- The 1×1 fallback texture resource constructed by
`_GetTextureResourceHandle` (material.cpp lines 424-437) from a literal
fallback value: a 1×1 GlfUVTextureStorage wrapped in an
HdStSimpleTextureResource with clamp wrap modes on all three axes,
nearest min/mag filtering and zero memory request. -/
def fallbackSimpleTextureResource (fallbackValue : VtVal) :
    HdStTextureResource :=
  HdStTextureResource.simple
    { texture := { width := 1, height := 1, storedValue := fallbackValue }
      textureType := HdTextureType.Uv
      wrapS := HdWrap.HdWrapClamp
      wrapT := HdWrap.HdWrapClamp
      wrapR := HdWrap.HdWrapClamp
      minFilter := HdMinFilter.HdMinFilterNearest
      magFilter := HdMagFilter.HdMagFilterNearest
      memoryRequest := 0 }

/-- Modelled from the spec: HdStSurfaceShader (its source file is not among
the sources here; material.cpp only calls it).  Per the spec's external
interface section, the shader object "receives fragment/geometry source
strings, material tag, parameter list, buffer specs/sources, and named
texture handles — this is the sole channel through which sync results reach
the draw pipeline".  Setters store their argument; `GetSource` returns the
stored string of the requested shader stage.  The
`textureDescriptors` field records the legacy-path per-parameter texture
descriptors handed to `SetTextureDescriptors` (parameter paired with its
resolved handle), and `bufferSpecs` the binder-generated specs handed to
`SetBufferSources`. -/
structure HdStSurfaceShader where
  fragmentSource : String
  geometrySource : String
  materialTag : Token
  params : List HdSt_MaterialParam
  enabledPrimvarFiltering : Bool
  textureDescriptors : List (HdSt_MaterialParam × Option HdStTextureResourceHandle)
  namedTextureHandles : List NamedTextureHandle
  bufferSpecs : List HdBufferSpec

/-- The dirty bits consulted by HdStMaterial::Sync (HdMaterial::DirtyBits):
only the DirtyResource and DirtyParams bits are inspected; Clean is the
mask with no bit set. -/
structure HdDirtyBits where
  dirtyResource : Bool
  dirtyParams : Bool
deriving DecidableEq, Repr

/-- HdMaterial::Clean. -/
def HdDirtyBits.clean : HdDirtyBits :=
  { dirtyResource := false, dirtyParams := false }

/-- The mutable state of an HdStMaterial that Sync reads and writes. -/
structure HdStMaterial where
  surfaceShader : HdStSurfaceShader
  isInitialized : Bool
  hasPtex : Bool
  hasLimitSurfaceEvaluation : Bool
  hasDisplacement : Bool
  materialTag : Token
  internalTextureResourceHandles : List HdStTextureResourceHandle

/-- HdStMaterialTagTokens->defaultMaterialTag. -/
def defaultMaterialTag : Token := "defaultMaterialTag"

/-- The state established by the HdStMaterial constructor: a fresh surface
shader, all flags false, not yet initialized, default material tag. -/
def HdStMaterial.initial : HdStMaterial :=
  { surfaceShader :=
      { fragmentSource := ""
        geometrySource := ""
        materialTag := defaultMaterialTag
        params := []
        enabledPrimvarFiltering := false
        textureDescriptors := []
        namedTextureHandles := []
        bufferSpecs := [] }
    isInitialized := false
    hasPtex := false
    hasLimitSurfaceEvaluation := false
    hasDisplacement := false
    materialTag := defaultMaterialTag
    internalTextureResourceHandles := [] }

/-- The value returned by the scene delegate's GetMaterialResource when it
holds an HdMaterialNetworkMap, together with what `_networkProcessor`
computes from that map (the processor is an external collaborator; its
outputs are inputs to this model). -/
structure MaterialNetworkResource where
  terminalsEmpty : Bool
  mapEmpty : Bool
  fragmentCode : String
  geometryCode : String
  metadata : VtDictionary
  materialTag : Token
  materialParams : List HdSt_MaterialParam
  textureDescriptors : List TextureDescriptor

/-- Process-wide inputs of one Sync call: the HDST_USE_NEW_TEXTURE_SYSTEM
env setting, the bindless-texture capability, the fallback glslfx file's
surface source and metadata, and the resource registry's
AllocateTextureHandle (external; modelled as a function from descriptor and
bindless flag to the allocated handle). -/
structure SyncEnv where
  useNewTextureSystem : Bool
  usesBindlessTextures : Bool
  fallbackSurfaceSource : String
  fallbackMetadata : VtDictionary
  allocateTextureHandle : TextureDescriptor → Bool → HdStTextureHandle

/-- Per-call inputs of one Sync call: the incoming dirty bits, the scene
delegate's material resource (`none` when the VtValue does not hold an
HdMaterialNetworkMap), and the external lookup results the legacy texture
path would see for each parameter. -/
structure SyncInput where
  dirtyBits : HdDirtyBits
  materialResource : Option MaterialNetworkResource
  textureLookup : HdSt_MaterialParam → TextureResolutionInput

/-- The invalidation calls a Sync pass makes on the change tracker. -/
structure SyncEvents where
  markBatchesDirtyCalls : Nat
  markAllRprimsDirtyCalls : Nat
deriving DecidableEq, Repr

/-- Result of a Sync call: updated material state, the written-back dirty
bits, and the invalidation calls issued. -/
structure SyncResult where
  material : HdStMaterial
  dirtyBits : HdDirtyBits
  events : SyncEvents

/-- The block of locals computed by Sync from the material network
(material.cpp lines 163-185 and the fallback block 187-194). -/
structure NetworkOutputs where
  fragmentSource : String
  geometrySource : String
  materialMetadata : VtDictionary
  materialTag : Token
  params : List HdSt_MaterialParam
  textureDescriptors : List TextureDescriptor

/-- Sync lines 163-185: local defaults (empty sources, empty metadata, the
current material tag, no params), overwritten by the network processor's
outputs when the delegate returns a network map with non-empty terminals
and non-empty map; texture descriptors are fetched only when the new
texture system is enabled. -/
def syncNetworkOutputs (useNewTextureSystem : Bool)
    (materialResource : Option MaterialNetworkResource)
    (currentMaterialTag : Token) : NetworkOutputs :=
  match materialResource with
  | some hdNetworkMap =>
      if ¬hdNetworkMap.terminalsEmpty ∧ ¬hdNetworkMap.mapEmpty then
        { fragmentSource := hdNetworkMap.fragmentCode
          geometrySource := hdNetworkMap.geometryCode
          materialMetadata := hdNetworkMap.metadata
          materialTag := hdNetworkMap.materialTag
          params := hdNetworkMap.materialParams
          textureDescriptors :=
            if useNewTextureSystem then hdNetworkMap.textureDescriptors
            else [] }
      else
        { fragmentSource := ""
          geometrySource := ""
          materialMetadata := []
          materialTag := currentMaterialTag
          params := []
          textureDescriptors := [] }
  | none =>
      { fragmentSource := ""
        geometrySource := ""
        materialMetadata := []
        materialTag := currentMaterialTag
        params := []
        textureDescriptors := [] }

/-- Sync lines 187-194: when both sources are empty, take the fallback
shader path: surface source and metadata from the fallback glslfx, and an
explicitly empty geometry source (fallback materials never displace). -/
def syncApplyFallbackShader (env : SyncEnv) (r : NetworkOutputs) :
    NetworkOutputs :=
  if r.fragmentSource = "" ∧ r.geometrySource = "" then
    { r with
      fragmentSource := env.fallbackSurfaceSource
      geometrySource := ""
      materialMetadata := env.fallbackMetadata }
  else r

/-- The resolved network outputs of one Sync pass, after the fallback
substitution. -/
def syncResolved (env : SyncEnv) (inp : SyncInput) (m : HdStMaterial) :
    NetworkOutputs :=
  syncApplyFallbackShader env
    (syncNetworkOutputs env.useNewTextureSystem inp.materialResource
      m.materialTag)

/-- HdStMaterial::_GetHasLimitSurfaceEvaluation: look up the
"limitSurfaceEvaluation" entry of the metadata dictionary; true exactly
when the entry exists and holds the boolean true. -/
def _GetHasLimitSurfaceEvaluation (metadata : VtDictionary) : Bool :=
  match metadata.lookup "limitSurfaceEvaluation" with
  | some (VtVal.boolVal b) => b
  | _ => false

/-- The static helper `_GetNamedTextureHandles` of material.cpp: for every
descriptor whose type the new texture system supports, allocate a texture
handle through the registry and emit a named handle; other descriptors are
skipped. -/
def _GetNamedTextureHandles
    (allocateTextureHandle : TextureDescriptor → Bool → HdStTextureHandle)
    (usesBindlessTextures : Bool)
    (descs : List TextureDescriptor) : List NamedTextureHandle :=
  descs.foldl (fun result desc =>
    if _IsSupportedByNewTextureSystem desc.type then
      result ++ [{ name := desc.name
                   type := desc.type
                   handle := allocateTextureHandle desc usesBindlessTextures }]
    else result) []

/-- Accumulator of the parameter loop of Sync (lines 265-289): the hasPtex
flag, the internally owned fallback handles pushed by the legacy texture
path, and the legacy texture descriptors handed to the surface shader. -/
structure ParamLoopResult where
  hasPtex : Bool
  internalHandles : List HdStTextureResourceHandle
  textureResourceDescriptors :
    List (HdSt_MaterialParam × Option HdStTextureResourceHandle)

/-- Sync lines 265-289: walk the parameter list.  Fallback and
primvar-redirect parameters contribute buffer values through an external
helper (no state tracked here); texture parameters set hasPtex when their
type is Ptex and go through the legacy `_GetTextureResourceHandle`
resolution unless the new texture system is enabled and supports their
type. -/
def syncParamLoop (useNewTextureSystem : Bool)
    (textureLookup : HdSt_MaterialParam → TextureResolutionInput) :
    List HdSt_MaterialParam → ParamLoopResult → ParamLoopResult
  | [], acc => acc
  | param :: rest, acc =>
      let acc :=
        if param.IsPrimvarRedirect || param.IsFallback then acc
        else if param.IsTexture then
          let acc :=
            if param.textureType = HdTextureType.Ptex then
              { acc with hasPtex := true }
            else acc
          if ¬(useNewTextureSystem &&
               _IsSupportedByNewTextureSystem param.textureType) then
            let resolved := _GetTextureResourceHandle (textureLookup param) param
            { acc with
              internalHandles := acc.internalHandles ++ resolved.2
              textureResourceDescriptors :=
                acc.textureResourceDescriptors ++ [(param, resolved.1)] }
          else acc
        else acc
      syncParamLoop useNewTextureSystem textureLookup rest acc

/-- HdStMaterial::Sync, as a state transformer: given the process-wide
environment, the per-call inputs and the current material state, produce
the updated state, the written-back dirty bits and the invalidation calls.
The body follows material.cpp lines 151-328 in order; in particular the
shader sources are stored (lines 196-197) and the material tag member is
updated (lines 214-218) before the batch-invalidation comparison block
(lines 226-249) reads them back. -/
def HdStMaterial.Sync (env : SyncEnv) (inp : SyncInput) (m : HdStMaterial) :
    SyncResult :=
  let bits := inp.dirtyBits
  if ¬bits.dirtyResource ∧ ¬bits.dirtyParams then
    { material := m
      dirtyBits := HdDirtyBits.clean
      events := { markBatchesDirtyCalls := 0, markAllRprimsDirtyCalls := 0 } }
  else
    let r := syncResolved env inp m
    let shader0 := { m.surfaceShader with
                     fragmentSource := r.fragmentSource
                     geometrySource := r.geometrySource }
    let hasDisplacement : Bool := if r.geometrySource = "" then false else true
    let hasDispStored :=
      if m.hasDisplacement ≠ hasDisplacement then hasDisplacement
      else m.hasDisplacement
    let needs1 : Bool :=
      if m.hasDisplacement ≠ hasDisplacement then true else false
    let hasLimit := _GetHasLimitSurfaceEvaluation r.materialMetadata
    let hasLimitStored :=
      if m.hasLimitSurfaceEvaluation ≠ hasLimit then hasLimit
      else m.hasLimitSurfaceEvaluation
    let needs2 : Bool :=
      if m.hasLimitSurfaceEvaluation ≠ hasLimit then true else needs1
    let tagStored :=
      if m.materialTag ≠ r.materialTag then r.materialTag else m.materialTag
    let shader1 :=
      if m.materialTag ≠ r.materialTag then
        { shader0 with materialTag := r.materialTag }
      else shader0
    let needs3 : Bool :=
      if m.materialTag ≠ r.materialTag then true else needs2
    let shader2 := { shader1 with enabledPrimvarFiltering := true }
    let markBatchesDirty : Bool :=
      if m.isInitialized then
        let mbd : Bool := decide (tagStored ≠ r.materialTag)
        if mbd = false then
          let oldFragmentSource := shader2.fragmentSource
          let oldGeometrySource := shader2.geometrySource
          mbd || decide (oldFragmentSource ≠ r.fragmentSource)
              || decide (oldGeometrySource ≠ r.geometrySource)
        else mbd
      else false
    let shader3 := { shader2 with params := r.params }
    let loop := syncParamLoop env.useNewTextureSystem inp.textureLookup
      r.params
      { hasPtex := false, internalHandles := [],
        textureResourceDescriptors := [] }
    let shader4 := { shader3 with
                     textureDescriptors := loop.textureResourceDescriptors }
    let newTextures :=
      if env.useNewTextureSystem then
        _GetNamedTextureHandles env.allocateTextureHandle
          env.usesBindlessTextures r.textureDescriptors
      else []
    let shader5 :=
      if env.useNewTextureSystem then
        { shader4 with namedTextureHandles := newTextures }
      else shader4
    let specs :=
      if env.useNewTextureSystem then
        HdSt_TextureBinder.GetBufferSpecs env.usesBindlessTextures
          newTextures []
      else ([] : List HdBufferSpec)
    let shader6 := { shader5 with bufferSpecs := specs }
    let hasPtexStored :=
      if m.hasPtex ≠ loop.hasPtex then loop.hasPtex else m.hasPtex
    let needs4 : Bool :=
      if m.hasPtex ≠ loop.hasPtex then true else needs3
    { material :=
        { surfaceShader := shader6
          isInitialized := true
          hasPtex := hasPtexStored
          hasLimitSurfaceEvaluation := hasLimitStored
          hasDisplacement := hasDispStored
          materialTag := tagStored
          internalTextureResourceHandles := loop.internalHandles }
      dirtyBits := HdDirtyBits.clean
      events :=
        { markBatchesDirtyCalls := if markBatchesDirty then 1 else 0
          markAllRprimsDirtyCalls :=
            if needs4 && m.isInitialized then 1 else 0 } }

/-! ## UsdImagingDataSourcePrimvar (usdImaging/dataSourcePrimvars.cpp) -/

/-- UsdAttributeQuery, as far as the embedded code inspects it: validity,
whether it has a value, and an opaque key identifying the queried
attribute. -/
structure UsdAttributeQuery where
  isValid : Bool
  hasValue : Bool
  attrKey : Nat
deriving DecidableEq, Repr

/-- Data sources returned by the primvar data source: either a data source
exposing a USD attribute's value, or a token-valued data source (the stored
interpolation and role handles). -/
inductive HdDataSource where
  | fromAttribute (query : UsdAttributeQuery)
  | tokenSource (t : Token)
deriving DecidableEq, Repr

/-- Modelled from the spec: `UsdImagingDataSourceAttributeNew`
(usdImaging/dataSourceAttribute.h, whose source is not among the files
here) builds the data source exposing a USD attribute's value; the spec
treats the scene-graph data-source layer as "a read-only key/value property
provider".  It is modelled as constructing the attribute data source for
the given query. -/
def UsdImagingDataSourceAttributeNew (query : UsdAttributeQuery) :
    HdDataSource :=
  HdDataSource.fromAttribute query

/-- HdPrimvarSchemaTokens->primvarValue. -/
def HdPrimvarSchemaTokens.primvarValue : Token := "primvarValue"

/-- HdPrimvarSchemaTokens->indexedPrimvarValue. -/
def HdPrimvarSchemaTokens.indexedPrimvarValue : Token := "indexedPrimvarValue"

/-- HdPrimvarSchemaTokens->indices. -/
def HdPrimvarSchemaTokens.indices : Token := "indices"

/-- HdPrimvarSchemaTokens->interpolation. -/
def HdPrimvarSchemaTokens.interpolation : Token := "interpolation"

/-- HdPrimvarSchemaTokens->role. -/
def HdPrimvarSchemaTokens.role : Token := "role"

/-- The static helper `_IsIndexed` of dataSourcePrimvars.cpp: the indices
query is valid and has a value. -/
def _IsIndexed (indicesQuery : UsdAttributeQuery) : Bool :=
  indicesQuery.isValid && indicesQuery.hasValue

/-- UsdImagingDataSourcePrimvar: the per-primvar container data source.
It stores the value and indices attribute queries and the interpolation and
role token data source handles (handles may be null, hence `Option`). -/
structure UsdImagingDataSourcePrimvar where
  valueQuery : UsdAttributeQuery
  indicesQuery : UsdAttributeQuery
  interpolation : Option HdDataSource
  role : Option HdDataSource
deriving DecidableEq, Repr

/-- UsdImagingDataSourcePrimvar::Has. -/
def UsdImagingDataSourcePrimvar.Has (p : UsdImagingDataSourcePrimvar)
    (name : Token) : Bool :=
  let indexed := _IsIndexed p.indicesQuery
  if indexed then
    name == HdPrimvarSchemaTokens.indexedPrimvarValue ||
    name == HdPrimvarSchemaTokens.indices ||
    name == HdPrimvarSchemaTokens.interpolation ||
    name == HdPrimvarSchemaTokens.role
  else
    name == HdPrimvarSchemaTokens.primvarValue ||
    name == HdPrimvarSchemaTokens.interpolation ||
    name == HdPrimvarSchemaTokens.role

/-- UsdImagingDataSourcePrimvar::GetNames: interpolation and role first,
then the value entries that depend on whether the primvar is indexed. -/
def UsdImagingDataSourcePrimvar.GetNames
    (p : UsdImagingDataSourcePrimvar) : List Token :=
  let indexed := _IsIndexed p.indicesQuery
  let result := [HdPrimvarSchemaTokens.interpolation,
                 HdPrimvarSchemaTokens.role]
  if indexed then
    result ++ [HdPrimvarSchemaTokens.indexedPrimvarValue,
               HdPrimvarSchemaTokens.indices]
  else
    result ++ [HdPrimvarSchemaTokens.primvarValue]

/-- UsdImagingDataSourcePrimvar::Get: the value entries (guarded by the
indexed flag) return attribute data sources; interpolation and role return
the stored handles; anything else returns null. -/
def UsdImagingDataSourcePrimvar.Get (p : UsdImagingDataSourcePrimvar)
    (name : Token) : Option HdDataSource :=
  let indexed := _IsIndexed p.indicesQuery
  let fromValueEntries : Option HdDataSource :=
    if indexed then
      if name = HdPrimvarSchemaTokens.indexedPrimvarValue then
        some (UsdImagingDataSourceAttributeNew p.valueQuery)
      else if name = HdPrimvarSchemaTokens.indices then
        some (UsdImagingDataSourceAttributeNew p.indicesQuery)
      else none
    else
      if name = HdPrimvarSchemaTokens.primvarValue then
        some (UsdImagingDataSourceAttributeNew p.valueQuery)
      else none
  match fromValueEntries with
  | some ds => some ds
  | none =>
      if name = HdPrimvarSchemaTokens.interpolation then p.interpolation
      else if name = HdPrimvarSchemaTokens.role then p.role
      else none

/-! ## Concrete scenario fixtures -/

/-- A trivial texture-handle allocator for concrete scenarios. -/
def fixtureAllocate : TextureDescriptor → Bool → HdStTextureHandle :=
  fun _ _ => { textureObject := HdStTextureObject.uv none
               samplerObject := HdStSamplerObject.uv 0 0 }

/-- Per-parameter external lookup results that resolve nothing: invalid
texture id, registry misses, no delegate resource. -/
def fixtureNullLookup : HdSt_MaterialParam → TextureResolutionInput :=
  fun _ => { texID := -1, registryResource := none, registryHandle := none,
             delegateResource := none }

/-- A concrete environment: legacy texture path, bindless off, a named
fallback surface source. -/
def fixtureEnv : SyncEnv :=
  { useNewTextureSystem := false
    usesBindlessTextures := false
    fallbackSurfaceSource := "fallbackSurface"
    fallbackMetadata := []
    allocateTextureHandle := fixtureAllocate }

/-- A Sync input whose delegate returns a non-empty network processed to
the given fragment and geometry code and material tag, with the resource
dirty bit set. -/
def fixtureNetworkInput (fragmentCode geometryCode : String)
    (materialTag : Token) : SyncInput :=
  { dirtyBits := { dirtyResource := true, dirtyParams := false }
    materialResource := some
      { terminalsEmpty := false
        mapEmpty := false
        fragmentCode := fragmentCode
        geometryCode := geometryCode
        metadata := []
        materialTag := materialTag
        materialParams := []
        textureDescriptors := [] }
    textureLookup := fixtureNullLookup }

/-- A Sync input with the resource dirty bit set whose delegate returns no
material network at all. -/
def fixtureEmptyInput : SyncInput :=
  { dirtyBits := { dirtyResource := true, dirtyParams := false }
    materialResource := none
    textureLookup := fixtureNullLookup }

/-- The material state after a first sync that established fragment source
"surfaceA", empty geometry source and the default material tag. -/
def fixtureSyncedMaterial : HdStMaterial :=
  (HdStMaterial.Sync fixtureEnv
    (fixtureNetworkInput "surfaceA" "" defaultMaterialTag)
    HdStMaterial.initial).material

/-- A Uv texture parameter with no connection and non-default sampler
parameters, for concrete scenarios. -/
def fixtureUvParam : HdSt_MaterialParam :=
  { paramType := HdSt_MaterialParamType.ParamTypeTexture
    name := "diffuseTex"
    fallbackValue := VtVal.intVal 7
    connection := ""
    textureType := HdTextureType.Uv
    samplerParameters :=
      { wrapS := HdWrap.HdWrapRepeat
        wrapT := HdWrap.HdWrapRepeat
        wrapR := HdWrap.HdWrapRepeat
        minFilter := HdMinFilter.HdMinFilterLinear
        magFilter := HdMagFilter.HdMagFilterLinear } }

/-- Concrete external lookup results that resolve nothing. -/
def fixtureNullResolution : TextureResolutionInput :=
  { texID := -1, registryResource := none, registryHandle := none,
    delegateResource := none }

/-- A concrete indexed primvar data source with non-null interpolation and
role handles. -/
def fixturePrimvar : UsdImagingDataSourcePrimvar :=
  { valueQuery := { isValid := true, hasValue := true, attrKey := 1 }
    indicesQuery := { isValid := true, hasValue := true, attrKey := 2 }
    interpolation := some (HdDataSource.tokenSource "vertex")
    role := some (HdDataSource.tokenSource "color") }

/-! ## Theorems -/

/-- C5: for a single named Ptex texture, `GetBufferSpecs` appends exactly
two entries when bindless textures are enabled — the base name and the
base name suffixed "_layout", both of tuple type (UInt32Vec2, 1) — and no
entry when bindless is off. -/
theorem ptex_bindless_buffer_specs (name : Token) (h : HdStTextureHandle)
    (usesBindlessTextures : Bool) :
    HdSt_TextureBinder.GetBufferSpecs usesBindlessTextures
        [{ name := name, type := HdTextureType.Ptex, handle := h }] [] =
      if usesBindlessTextures then
        [{ name := name,
           tupleType := { type := HdType.HdTypeUInt32Vec2, count := 1 } },
         { name := name ++ "_layout",
           tupleType := { type := HdType.HdTypeUInt32Vec2, count := 1 } }]
      else [] := by
  cases usesBindlessTextures <;>
    simp [HdSt_TextureBinder.GetBufferSpecs, _bindlessHandleTupleType]

/-- C6: for a single named Field texture, `GetBufferSpecs` always appends
the "SamplingTransform"-suffixed entry with a 4×4 double-matrix tuple type,
and additionally the base-name entry with the 2-component unsigned handle
tuple type exactly when bindless textures are enabled. -/
theorem field_buffer_specs_sampling_transform (name : Token)
    (h : HdStTextureHandle) (usesBindlessTextures : Bool) :
    HdSt_TextureBinder.GetBufferSpecs usesBindlessTextures
        [{ name := name, type := HdTextureType.Field, handle := h }] [] =
      if usesBindlessTextures then
        [{ name := name,
           tupleType := { type := HdType.HdTypeUInt32Vec2, count := 1 } },
         { name := name ++ "SamplingTransform",
           tupleType := { type := HdType.HdTypeDoubleMat4, count := 1 } }]
      else
        [{ name := name ++ "SamplingTransform",
           tupleType := { type := HdType.HdTypeDoubleMat4, count := 1 } }] := by
  cases usesBindlessTextures <;>
    simp [HdSt_TextureBinder.GetBufferSpecs, _bindlessHandleTupleType]

/-- C7: when bindless textures are active, `BindResources` and
`UnbindResources` issue no device command at all, for every resource binder
and every list of named texture handles. -/
theorem bindless_bind_unbind_noops (binder : HdSt_ResourceBinder)
    (textures : List NamedTextureHandle) :
    HdSt_TextureBinder.BindResources true binder textures = [] ∧
    HdSt_TextureBinder.UnbindResources true binder textures = [] := by
  constructor <;> rfl

/-- Helper: the fast path of Sync, used when neither inspected dirty bit is
set: the state is returned unchanged, the dirty bits are written back as
Clean, and no invalidation call is made. -/
theorem sync_clean_eq (env : SyncEnv) (inp : SyncInput) (m : HdStMaterial)
    (h1 : inp.dirtyBits.dirtyResource = false)
    (h2 : inp.dirtyBits.dirtyParams = false) :
    HdStMaterial.Sync env inp m =
      { material := m
        dirtyBits := HdDirtyBits.clean
        events := { markBatchesDirtyCalls := 0
                    markAllRprimsDirtyCalls := 0 } } := by
  simp [HdStMaterial.Sync, h1, h2]

/-- Helper: on the processing path, the negated guard of the fast path. -/
theorem sync_dirty_guard (inp : SyncInput)
    (h : inp.dirtyBits.dirtyResource = true ∨ inp.dirtyBits.dirtyParams = true) :
    ¬(¬inp.dirtyBits.dirtyResource ∧ ¬inp.dirtyBits.dirtyParams) := by
  rcases h with h | h <;> simp [h]

/-- Helper: on the processing path, the batch-dirty invalidation is never
issued: the comparison block reads the material tag member and the shader
sources after they were already updated to the new values, so both
comparisons always see equal values. -/
theorem sync_dirty_batch_calls (env : SyncEnv) (inp : SyncInput)
    (m : HdStMaterial)
    (h : inp.dirtyBits.dirtyResource = true ∨ inp.dirtyBits.dirtyParams = true) :
    (HdStMaterial.Sync env inp m).events.markBatchesDirtyCalls = 0 := by
  have hg := sync_dirty_guard inp h
  simp only [HdStMaterial.Sync, if_neg hg]
  split_ifs <;> simp_all

/-- Helper: on the processing path, the global rprim invalidation is issued
exactly once when the material was already initialized and any of the
displacement, limit-surface-evaluation or ptex flags or the material tag
differs from the newly computed value, and zero times otherwise. -/
theorem sync_dirty_rprim_calls (env : SyncEnv) (inp : SyncInput)
    (m : HdStMaterial)
    (h : inp.dirtyBits.dirtyResource = true ∨ inp.dirtyBits.dirtyParams = true) :
    (HdStMaterial.Sync env inp m).events.markAllRprimsDirtyCalls =
      if (m.hasDisplacement ≠
            (if (syncResolved env inp m).geometrySource = "" then false
             else true) ∨
          m.hasLimitSurfaceEvaluation ≠
            _GetHasLimitSurfaceEvaluation
              (syncResolved env inp m).materialMetadata ∨
          m.materialTag ≠ (syncResolved env inp m).materialTag ∨
          m.hasPtex ≠
            (syncParamLoop env.useNewTextureSystem inp.textureLookup
              (syncResolved env inp m).params
              { hasPtex := false, internalHandles := [],
                textureResourceDescriptors := [] }).hasPtex) ∧
         m.isInitialized = true
      then 1 else 0 := by
  have hg := sync_dirty_guard inp h
  simp only [HdStMaterial.Sync, if_neg hg]
  split_ifs <;> simp_all

/-- Helper: on the processing path, the surface shader ends up holding the
resolved fragment source. -/
theorem sync_dirty_fragmentSource (env : SyncEnv) (inp : SyncInput)
    (m : HdStMaterial)
    (h : inp.dirtyBits.dirtyResource = true ∨ inp.dirtyBits.dirtyParams = true) :
    (HdStMaterial.Sync env inp m).material.surfaceShader.fragmentSource =
      (syncResolved env inp m).fragmentSource := by
  have hg := sync_dirty_guard inp h
  simp only [HdStMaterial.Sync, if_neg hg]
  split_ifs <;> rfl

/-- Helper: on the processing path, the surface shader ends up holding the
resolved geometry source. -/
theorem sync_dirty_geometrySource (env : SyncEnv) (inp : SyncInput)
    (m : HdStMaterial)
    (h : inp.dirtyBits.dirtyResource = true ∨ inp.dirtyBits.dirtyParams = true) :
    (HdStMaterial.Sync env inp m).material.surfaceShader.geometrySource =
      (syncResolved env inp m).geometrySource := by
  have hg := sync_dirty_guard inp h
  simp only [HdStMaterial.Sync, if_neg hg]
  split_ifs <;> rfl

/-- Helper: on the processing path, the stored has-displacement flag equals
the emptiness test of the resolved geometry source. -/
theorem sync_dirty_hasDisplacement (env : SyncEnv) (inp : SyncInput)
    (m : HdStMaterial)
    (h : inp.dirtyBits.dirtyResource = true ∨ inp.dirtyBits.dirtyParams = true) :
    (HdStMaterial.Sync env inp m).material.hasDisplacement =
      (if (syncResolved env inp m).geometrySource = "" then false
       else true) := by
  have hg := sync_dirty_guard inp h
  simp only [HdStMaterial.Sync, if_neg hg]
  split_ifs <;> simp_all

/-- C3: a Sync call whose dirty mask has neither the DirtyResource nor the
DirtyParams bit set returns immediately: the dirty mask is written back as
Clean, the material and shader state are unchanged, and no invalidation
call (batch or rprim) is made. -/
theorem sync_clean_mask_is_noop (env : SyncEnv) (inp : SyncInput)
    (m : HdStMaterial)
    (h : inp.dirtyBits.dirtyResource = false ∧
         inp.dirtyBits.dirtyParams = false) :
    HdStMaterial.Sync env inp m =
      { material := m
        dirtyBits := HdDirtyBits.clean
        events := { markBatchesDirtyCalls := 0
                    markAllRprimsDirtyCalls := 0 } } :=
  sync_clean_eq env inp m h.1 h.2

/-- C3 witness: the fast path at a concrete clean-mask input. -/
theorem sync_clean_mask_is_noop_witness :
    ({ fixtureEmptyInput with
       dirtyBits := HdDirtyBits.clean }.dirtyBits.dirtyResource = false ∧
     { fixtureEmptyInput with
       dirtyBits := HdDirtyBits.clean }.dirtyBits.dirtyParams = false) ∧
    HdStMaterial.Sync fixtureEnv
        { fixtureEmptyInput with dirtyBits := HdDirtyBits.clean }
        HdStMaterial.initial =
      { material := HdStMaterial.initial
        dirtyBits := HdDirtyBits.clean
        events := { markBatchesDirtyCalls := 0
                    markAllRprimsDirtyCalls := 0 } } :=
  ⟨⟨rfl, rfl⟩,
   sync_clean_mask_is_noop fixtureEnv
     { fixtureEmptyInput with dirtyBits := HdDirtyBits.clean }
     HdStMaterial.initial ⟨rfl, rfl⟩⟩

/-- C2: after the first successful sync, a change of any of the three
feature flags (has-displacement, has-limit-surface-evaluation, has-ptex)
relative to the stored state makes the Sync pass call
MarkAllRprimsDirty(DirtyMaterialId) exactly once; on the first-ever sync
the call is never made, regardless of flags. -/
theorem sync_flag_transition_triggers_rprim_dirty (env : SyncEnv)
    (inp : SyncInput) (m : HdStMaterial) :
    (m.isInitialized = false →
      (HdStMaterial.Sync env inp m).events.markAllRprimsDirtyCalls = 0) ∧
    (inp.dirtyBits.dirtyResource = true ∨ inp.dirtyBits.dirtyParams = true →
      m.isInitialized = true →
      (m.hasDisplacement ≠
         (if (syncResolved env inp m).geometrySource = "" then false
          else true) ∨
       m.hasLimitSurfaceEvaluation ≠
         _GetHasLimitSurfaceEvaluation
           (syncResolved env inp m).materialMetadata ∨
       m.hasPtex ≠
         (syncParamLoop env.useNewTextureSystem inp.textureLookup
           (syncResolved env inp m).params
           { hasPtex := false, internalHandles := [],
             textureResourceDescriptors := [] }).hasPtex) →
      (HdStMaterial.Sync env inp m).events.markAllRprimsDirtyCalls = 1) := by
  constructor
  · intro hinit
    by_cases hres : inp.dirtyBits.dirtyResource = true
    · rw [sync_dirty_rprim_calls env inp m (Or.inl hres)]
      simp [hinit]
    · by_cases hpar : inp.dirtyBits.dirtyParams = true
      · rw [sync_dirty_rprim_calls env inp m (Or.inr hpar)]
        simp [hinit]
      · rw [sync_clean_eq env inp m (by simpa using hres)
          (by simpa using hpar)]
  · intro hd hinit hflags
    rw [sync_dirty_rprim_calls env inp m hd]
    exact if_pos ⟨by tauto, hinit⟩

/-- C2 witness: a second sync whose network adds a geometry source toggles
the has-displacement flag and issues exactly one rprim invalidation. -/
theorem sync_flag_transition_triggers_rprim_dirty_witness :
    ((fixtureNetworkInput "surfaceA" "geomX"
        defaultMaterialTag).dirtyBits.dirtyResource = true ∨
     (fixtureNetworkInput "surfaceA" "geomX"
        defaultMaterialTag).dirtyBits.dirtyParams = true) ∧
    fixtureSyncedMaterial.isInitialized = true ∧
    fixtureSyncedMaterial.hasDisplacement ≠
      (if (syncResolved fixtureEnv
            (fixtureNetworkInput "surfaceA" "geomX" defaultMaterialTag)
            fixtureSyncedMaterial).geometrySource = "" then false
       else true) ∧
    (HdStMaterial.Sync fixtureEnv
        (fixtureNetworkInput "surfaceA" "geomX" defaultMaterialTag)
        fixtureSyncedMaterial).events.markAllRprimsDirtyCalls = 1 :=
  ⟨Or.inl rfl, rfl, by decide,
   (sync_flag_transition_triggers_rprim_dirty fixtureEnv
      (fixtureNetworkInput "surfaceA" "geomX" defaultMaterialTag)
      fixtureSyncedMaterial).2 (Or.inl rfl) rfl (Or.inl (by decide))⟩

/-- C1: the batch-invalidation rule is dead code in this revision: after a
first successful sync (material initialized, fragment source "surfaceA",
default material tag), a second sync that changes both the material tag
(to "translucent") and the fragment source (to "surfaceB") still makes no
MarkBatchesDirty call, because the member tag and the stored shader
sources are updated before the comparison block reads them back, so the
comparisons always see equal values. -/
theorem sync_markBatchesDirty_dead_on_changed_tag_and_source :
    fixtureSyncedMaterial.isInitialized = true ∧
    fixtureSyncedMaterial.surfaceShader.fragmentSource = "surfaceA" ∧
    fixtureSyncedMaterial.materialTag = defaultMaterialTag ∧
    (HdStMaterial.Sync fixtureEnv
        (fixtureNetworkInput "surfaceB" "" "translucent")
        fixtureSyncedMaterial).events.markBatchesDirtyCalls = 0 :=
  ⟨rfl, rfl, rfl, rfl⟩

/-- C8: when the processed network yields an empty fragment source and an
empty geometry source, Sync takes the fallback-shader path: the surface
shader receives the fallback surface source and an empty geometry source,
so the stored has-displacement flag is false. -/
theorem fallback_shader_empty_geometry_source (env : SyncEnv)
    (inp : SyncInput) (m : HdStMaterial)
    (hd : inp.dirtyBits.dirtyResource = true ∨
          inp.dirtyBits.dirtyParams = true)
    (hempty :
      (syncNetworkOutputs env.useNewTextureSystem inp.materialResource
        m.materialTag).fragmentSource = "" ∧
      (syncNetworkOutputs env.useNewTextureSystem inp.materialResource
        m.materialTag).geometrySource = "") :
    (HdStMaterial.Sync env inp m).material.surfaceShader.fragmentSource =
      env.fallbackSurfaceSource ∧
    (HdStMaterial.Sync env inp m).material.surfaceShader.geometrySource =
      "" ∧
    (HdStMaterial.Sync env inp m).material.hasDisplacement = false := by
  have hres : syncResolved env inp m =
      { syncNetworkOutputs env.useNewTextureSystem inp.materialResource
          m.materialTag with
        fragmentSource := env.fallbackSurfaceSource
        geometrySource := ""
        materialMetadata := env.fallbackMetadata } := by
    unfold syncResolved syncApplyFallbackShader
    rw [if_pos hempty]
  refine ⟨?_, ?_, ?_⟩
  · rw [sync_dirty_fragmentSource env inp m hd, hres]
  · rw [sync_dirty_geometrySource env inp m hd, hres]
  · rw [sync_dirty_hasDisplacement env inp m hd, hres]
    simp

/-- C8 witness: a sync with no material resource at all takes the fallback
path; the geometry source is empty and has-displacement is false. -/
theorem fallback_shader_empty_geometry_source_witness :
    (fixtureEmptyInput.dirtyBits.dirtyResource = true ∨
     fixtureEmptyInput.dirtyBits.dirtyParams = true) ∧
    ((syncNetworkOutputs fixtureEnv.useNewTextureSystem
        fixtureEmptyInput.materialResource
        HdStMaterial.initial.materialTag).fragmentSource = "" ∧
     (syncNetworkOutputs fixtureEnv.useNewTextureSystem
        fixtureEmptyInput.materialResource
        HdStMaterial.initial.materialTag).geometrySource = "") ∧
    ((HdStMaterial.Sync fixtureEnv fixtureEmptyInput
        HdStMaterial.initial).material.surfaceShader.fragmentSource =
      fixtureEnv.fallbackSurfaceSource ∧
     (HdStMaterial.Sync fixtureEnv fixtureEmptyInput
        HdStMaterial.initial).material.surfaceShader.geometrySource = "" ∧
     (HdStMaterial.Sync fixtureEnv fixtureEmptyInput
        HdStMaterial.initial).material.hasDisplacement = false) :=
  ⟨Or.inl rfl, ⟨rfl, rfl⟩,
   fallback_shader_empty_geometry_source fixtureEnv fixtureEmptyInput
     HdStMaterial.initial (Or.inl rfl) ⟨rfl, rfl⟩⟩

/-- Helper: when no usable texture resource can be found (empty connection,
or an unresolved/missing registry resource together with the delegate
returning none), `_GetTextureResourceHandle` either constructs the 1×1
fallback handle (Uv parameters) or returns the empty handle (any other
texture type); either way the registry path contributes nothing. -/
theorem texture_resolution_unusable (inp : TextureResolutionInput)
    (param : HdSt_MaterialParam)
    (h : param.connection = "" ∨
         ((inp.texID = -1 ∨ inp.registryResource = none) ∧
          inp.delegateResource = none)) :
    _GetTextureResourceHandle inp param =
      if param.textureType = HdTextureType.Uv then
        (some { textureResource :=
                  some (fallbackSimpleTextureResource param.fallbackValue) },
         [{ textureResource :=
              some (fallbackSimpleTextureResource param.fallbackValue) }])
      else (none, []) := by
  unfold _GetTextureResourceHandle
  by_cases hc : param.connection = ""
  · by_cases hUv : param.textureType = HdTextureType.Uv <;>
      simp [hc, hUv, fallbackSimpleTextureResource]
  · rcases h with hconn | ⟨hreg, hdel⟩
    · exact absurd hconn hc
    · have htr : (if inp.texID = -1 then (none : Option HdStTextureResource)
          else
            match inp.registryResource with
            | some found => some found
            | none => none) = none := by
        rcases hreg with hid | hrr
        · rw [if_pos hid]
        · by_cases hid : inp.texID = -1
          · rw [if_pos hid]
          · rw [if_neg hid, hrr]
      cases hrh : inp.registryHandle <;>
        by_cases hUv : param.textureType = HdTextureType.Uv <;>
          simp [hc, htr, hdel, hrh, hUv, fallbackSimpleTextureResource]

/-- C4: a texture parameter resolved through the legacy path with no usable
texture resource (empty connection, unresolved texture id, or the delegate
returning no resource) yields, for Uv parameters, a handle wrapping the
newly built 1×1 fallback texture which is also stored in the material's
internal handle list, and for every other texture type an empty handle
with nothing stored. -/
theorem texture_fallback_uv_handle_other_types_empty
    (inp : TextureResolutionInput) (param : HdSt_MaterialParam)
    (h : param.connection = "" ∨
         ((inp.texID = -1 ∨ inp.registryResource = none) ∧
          inp.delegateResource = none)) :
    (param.textureType = HdTextureType.Uv →
      _GetTextureResourceHandle inp param =
        (some { textureResource :=
                  some (fallbackSimpleTextureResource param.fallbackValue) },
         [{ textureResource :=
              some (fallbackSimpleTextureResource param.fallbackValue) }])) ∧
    (param.textureType ≠ HdTextureType.Uv →
      _GetTextureResourceHandle inp param = (none, [])) := by
  rw [texture_resolution_unusable inp param h]
  constructor
  · intro hUv
    rw [if_pos hUv]
  · intro hUv
    rw [if_neg hUv]

/-- C4 witness: an unconnected Uv parameter yields the stored fallback
handle; the same parameter retyped Ptex yields the empty handle. -/
theorem texture_fallback_uv_handle_other_types_empty_witness :
    (fixtureUvParam.connection = "" ∨
     ((fixtureNullResolution.texID = -1 ∨
       fixtureNullResolution.registryResource = none) ∧
      fixtureNullResolution.delegateResource = none)) ∧
    fixtureUvParam.textureType = HdTextureType.Uv ∧
    _GetTextureResourceHandle fixtureNullResolution fixtureUvParam =
      (some { textureResource :=
                some (fallbackSimpleTextureResource
                  fixtureUvParam.fallbackValue) },
       [{ textureResource :=
            some (fallbackSimpleTextureResource
              fixtureUvParam.fallbackValue) }]) ∧
    ({ fixtureUvParam with
       textureType := HdTextureType.Ptex }.textureType ≠
      HdTextureType.Uv) ∧
    _GetTextureResourceHandle fixtureNullResolution
      { fixtureUvParam with textureType := HdTextureType.Ptex } =
      (none, []) :=
  ⟨Or.inl rfl, rfl,
   (texture_fallback_uv_handle_other_types_empty fixtureNullResolution
      fixtureUvParam (Or.inl rfl)).1 rfl,
   by decide,
   (texture_fallback_uv_handle_other_types_empty fixtureNullResolution
      { fixtureUvParam with textureType := HdTextureType.Ptex }
      (Or.inl rfl)).2 (by decide)⟩

/-- C9: the internally constructed 1×1 fallback texture always uses clamp
wrap modes on all three axes and nearest min/mag filtering; the sampler
parameters declared on the material parameter are ignored (the result is
the same for every sampler-parameter value). -/
theorem fallback_texture_sampler_state_constant
    (inp : TextureResolutionInput) (param : HdSt_MaterialParam)
    (sp : HdSamplerParameters)
    (h : param.connection = "" ∨
         ((inp.texID = -1 ∨ inp.registryResource = none) ∧
          inp.delegateResource = none))
    (hUv : param.textureType = HdTextureType.Uv) :
    (_GetTextureResourceHandle inp
        { param with samplerParameters := sp }).1 =
      some { textureResource := some (HdStTextureResource.simple
        { texture := { width := 1, height := 1,
                       storedValue := param.fallbackValue }
          textureType := HdTextureType.Uv
          wrapS := HdWrap.HdWrapClamp
          wrapT := HdWrap.HdWrapClamp
          wrapR := HdWrap.HdWrapClamp
          minFilter := HdMinFilter.HdMinFilterNearest
          magFilter := HdMagFilter.HdMagFilterNearest
          memoryRequest := 0 }) } := by
  have h2 : ({ param with samplerParameters := sp }).connection = "" ∨
      ((inp.texID = -1 ∨ inp.registryResource = none) ∧
       inp.delegateResource = none) := h
  rw [texture_resolution_unusable inp
    { param with samplerParameters := sp } h2]
  simp [hUv, fallbackSimpleTextureResource]

/-- C9 witness: the fallback resource built for the unconnected Uv fixture
parameter under repeat/linear sampler parameters still carries clamp wrap
modes and nearest filters. -/
theorem fallback_texture_sampler_state_constant_witness :
    (fixtureUvParam.connection = "" ∨
     ((fixtureNullResolution.texID = -1 ∨
       fixtureNullResolution.registryResource = none) ∧
      fixtureNullResolution.delegateResource = none)) ∧
    fixtureUvParam.textureType = HdTextureType.Uv ∧
    (_GetTextureResourceHandle fixtureNullResolution
        { fixtureUvParam with
          samplerParameters := fixtureUvParam.samplerParameters }).1 =
      some { textureResource := some (HdStTextureResource.simple
        { texture := { width := 1, height := 1,
                       storedValue := fixtureUvParam.fallbackValue }
          textureType := HdTextureType.Uv
          wrapS := HdWrap.HdWrapClamp
          wrapT := HdWrap.HdWrapClamp
          wrapR := HdWrap.HdWrapClamp
          minFilter := HdMinFilter.HdMinFilterNearest
          magFilter := HdMagFilter.HdMagFilterNearest
          memoryRequest := 0 }) } :=
  ⟨Or.inl rfl, rfl,
   fallback_texture_sampler_state_constant fixtureNullResolution
     fixtureUvParam fixtureUvParam.samplerParameters (Or.inl rfl) rfl⟩

/-- C10: the three accessors of UsdImagingDataSourcePrimvar agree whenever
the stored interpolation and role handles are non-null: Get returns a
non-null data source exactly for the names Has accepts, these are exactly
the names GetNames lists, and that list is
{interpolation, role, indexedPrimvarValue, indices} when the primvar is
indexed and {interpolation, role, primvarValue} otherwise. -/
theorem primvar_data_source_accessors_agree
    (p : UsdImagingDataSourcePrimvar)
    (hInterp : p.interpolation ≠ none) (hRole : p.role ≠ none) :
    (∀ name : Token, p.Get name ≠ none ↔ p.Has name = true) ∧
    (∀ name : Token, p.Has name = true ↔ name ∈ p.GetNames) ∧
    (if _IsIndexed p.indicesQuery then
       p.GetNames = [HdPrimvarSchemaTokens.interpolation,
                     HdPrimvarSchemaTokens.role,
                     HdPrimvarSchemaTokens.indexedPrimvarValue,
                     HdPrimvarSchemaTokens.indices]
     else
       p.GetNames = [HdPrimvarSchemaTokens.interpolation,
                     HdPrimvarSchemaTokens.role,
                     HdPrimvarSchemaTokens.primvarValue]) := by
  refine ⟨?_, ?_, ?_⟩
  · intro name
    unfold UsdImagingDataSourcePrimvar.Get UsdImagingDataSourcePrimvar.Has
    cases hidx : _IsIndexed p.indicesQuery <;>
      by_cases h1 : name = HdPrimvarSchemaTokens.indexedPrimvarValue <;>
      by_cases h2 : name = HdPrimvarSchemaTokens.indices <;>
      by_cases h3 : name = HdPrimvarSchemaTokens.interpolation <;>
      by_cases h4 : name = HdPrimvarSchemaTokens.primvarValue <;>
      by_cases h5 : name = HdPrimvarSchemaTokens.role <;>
        simp_all +decide [UsdImagingDataSourceAttributeNew,
          HdPrimvarSchemaTokens.indexedPrimvarValue,
          HdPrimvarSchemaTokens.indices,
          HdPrimvarSchemaTokens.interpolation,
          HdPrimvarSchemaTokens.primvarValue,
          HdPrimvarSchemaTokens.role]
  · intro name
    unfold UsdImagingDataSourcePrimvar.Has UsdImagingDataSourcePrimvar.GetNames
    cases hidx : _IsIndexed p.indicesQuery <;>
      by_cases h1 : name = HdPrimvarSchemaTokens.indexedPrimvarValue <;>
      by_cases h2 : name = HdPrimvarSchemaTokens.indices <;>
      by_cases h3 : name = HdPrimvarSchemaTokens.interpolation <;>
      by_cases h4 : name = HdPrimvarSchemaTokens.primvarValue <;>
      by_cases h5 : name = HdPrimvarSchemaTokens.role <;>
        simp_all +decide [HdPrimvarSchemaTokens.indexedPrimvarValue,
          HdPrimvarSchemaTokens.indices,
          HdPrimvarSchemaTokens.interpolation,
          HdPrimvarSchemaTokens.primvarValue,
          HdPrimvarSchemaTokens.role]
  · unfold UsdImagingDataSourcePrimvar.GetNames
    cases hidx : _IsIndexed p.indicesQuery <;> simp [hidx]

/-- C10 witness: the concrete indexed fixture primvar has non-null stored
handles and its accessors agree. -/
theorem primvar_data_source_accessors_agree_witness :
    fixturePrimvar.interpolation ≠ none ∧
    fixturePrimvar.role ≠ none ∧
    ((∀ name : Token,
        fixturePrimvar.Get name ≠ none ↔ fixturePrimvar.Has name = true) ∧
     (∀ name : Token,
        fixturePrimvar.Has name = true ↔ name ∈ fixturePrimvar.GetNames) ∧
     (if _IsIndexed fixturePrimvar.indicesQuery then
        fixturePrimvar.GetNames = [HdPrimvarSchemaTokens.interpolation,
                                   HdPrimvarSchemaTokens.role,
                                   HdPrimvarSchemaTokens.indexedPrimvarValue,
                                   HdPrimvarSchemaTokens.indices]
      else
        fixturePrimvar.GetNames = [HdPrimvarSchemaTokens.interpolation,
                                   HdPrimvarSchemaTokens.role,
                                   HdPrimvarSchemaTokens.primvarValue])) :=
  ⟨by decide, by decide,
   primvar_data_source_accessors_agree fixturePrimvar (by decide)
     (by decide)⟩

end USD
